import Mathlib

/-!
Verification development for the geometric primitives kernel of the
`osrm-backend` repository slice (`src/DataStructures/Coordinate.cpp` and
`src/third_party/libosmium/include/osmium/area/detail/vector.hpp`).

Modelling conventions.

IEEE floating-point arithmetic is embedded as exact rational arithmetic
extended with the special values `+inf`, `-inf` and `NaN` (type `Fl` below).
Finite operations are exact (no rounding is modelled); the special values
follow the IEEE 754 rules for propagation, with the rational `0` playing the
role of IEEE `+0` as a divisor.  Transcendental library functions
(`sin`, `cos`, `atan2`, `sqrt`) and the Mercator latitude transform
(`lat2y` / `y2lat`, declared in `../Util/MercatorUtil.h`, which is outside
the source slice and which the spec explicitly treats as an external pure
function dependency) are taken as abstract function parameters of the
embedded operations, so every theorem is quantified over them.

The fixed-point scaling constant `COORDINATE_PRECISION` lives in the
`osrm/Coordinate.h` header, which is not part of the source slice; it is
modelled from the spec (which states the factor 1,000,000).
-/

/-- Modelled from the spec: the fixed-point scaling factor
`COORDINATE_PRECISION` is declared in the missing header `osrm/Coordinate.h`;
spec section 3 fixes it to 1,000,000 (6 decimal digits). -/
def COORDINATE_PRECISION : ℚ := 1000000

/-- Value of `std::numeric_limits<float>::epsilon()`, i.e. `2^-23`. -/
def flt_epsilon : ℚ := 1 / 8388608

/-- Value of `std::numeric_limits<int>::min()` for 32-bit `int`. -/
def intMin : ℤ := -2147483648

/-- The coordinate data type: two signed integer fields `lat`, `lon`
(fixed-point scaled degrees), as in `osrm/Coordinate.h` /
`Coordinate.cpp`. -/
structure FixedPointCoordinate where
  lat : ℤ
  lon : ℤ
deriving DecidableEq

/-- The default constructor `FixedPointCoordinate()`: both fields are set to
`std::numeric_limits<int>::min()` (Coordinate.cpp lines 42-45). -/
def FixedPointCoordinate.defaultInit : FixedPointCoordinate := ⟨intMin, intMin⟩

/-- `FixedPointCoordinate::Reset()` (lines 65-69): sets both fields to the
sentinel.  The C++ method mutates in place; the model returns the updated
value. -/
def FixedPointCoordinate.Reset (_c : FixedPointCoordinate) : FixedPointCoordinate :=
  ⟨intMin, intMin⟩

/-- `FixedPointCoordinate::isSet()` (lines 70-73). -/
def FixedPointCoordinate.isSet (c : FixedPointCoordinate) : Bool :=
  decide (intMin ≠ c.lat) && decide (intMin ≠ c.lon)

/-- `FixedPointCoordinate::isValid()` (lines 74-82).  The C++ comparisons
promote the `int` fields to `double` against `90 * COORDINATE_PRECISION`
etc.; integer-to-double conversion is exact in this range. -/
def FixedPointCoordinate.isValid (c : FixedPointCoordinate) : Bool :=
  if 90 * COORDINATE_PRECISION < (c.lat : ℚ) ∨ (c.lat : ℚ) < -90 * COORDINATE_PRECISION ∨
      180 * COORDINATE_PRECISION < (c.lon : ℚ) ∨ (c.lon : ℚ) < -180 * COORDINATE_PRECISION
  then false
  else true

/-- Truncation toward zero, the C++ float-to-int conversion. -/
def truncQ (v : ℚ) : ℤ := if 0 ≤ v then ⌊v⌋ else ⌈v⌉

theorem truncQ_intCast (z : ℤ) : truncQ (z : ℚ) = z := by
  unfold truncQ
  split
  · exact Int.floor_intCast z
  · exact Int.ceil_intCast z

theorem truncQ_int_sub (i j : ℤ) : truncQ ((i : ℚ) - (j : ℚ)) = i - j := by
  have h : ((i : ℚ) - (j : ℚ)) = ((i - j : ℤ) : ℚ) := by push_cast; ring
  rw [h, truncQ_intCast]

/-! ### The rational model of IEEE float values -/

/-- A float value: an exact rational, `+inf`, `-inf` or `NaN`. -/
inductive Fl where
  | fin : ℚ → Fl
  | pinf : Fl
  | ninf : Fl
  | nan : Fl
deriving DecidableEq

/-- IEEE negation. -/
def fneg : Fl → Fl
  | Fl.fin q => Fl.fin (-q)
  | Fl.pinf => Fl.ninf
  | Fl.ninf => Fl.pinf
  | Fl.nan => Fl.nan

/-- IEEE absolute value. -/
def fabs : Fl → Fl
  | Fl.fin q => Fl.fin |q|
  | Fl.pinf => Fl.pinf
  | Fl.ninf => Fl.pinf
  | Fl.nan => Fl.nan

/-- IEEE addition (exact on finite values). -/
def fadd : Fl → Fl → Fl
  | Fl.nan, _ => Fl.nan
  | _, Fl.nan => Fl.nan
  | Fl.fin a, Fl.fin b => Fl.fin (a + b)
  | Fl.pinf, Fl.ninf => Fl.nan
  | Fl.ninf, Fl.pinf => Fl.nan
  | Fl.pinf, _ => Fl.pinf
  | Fl.ninf, _ => Fl.ninf
  | _, Fl.pinf => Fl.pinf
  | _, Fl.ninf => Fl.ninf

/-- IEEE subtraction. -/
def fsub (a b : Fl) : Fl := fadd a (fneg b)

/-- IEEE multiplication (exact on finite values; `0 * inf = NaN`). -/
def fmul : Fl → Fl → Fl
  | Fl.nan, _ => Fl.nan
  | _, Fl.nan => Fl.nan
  | Fl.fin a, Fl.fin b => Fl.fin (a * b)
  | Fl.pinf, Fl.fin b => if 0 < b then Fl.pinf else if b < 0 then Fl.ninf else Fl.nan
  | Fl.ninf, Fl.fin b => if 0 < b then Fl.ninf else if b < 0 then Fl.pinf else Fl.nan
  | Fl.fin a, Fl.pinf => if 0 < a then Fl.pinf else if a < 0 then Fl.ninf else Fl.nan
  | Fl.fin a, Fl.ninf => if 0 < a then Fl.ninf else if a < 0 then Fl.pinf else Fl.nan
  | Fl.pinf, Fl.pinf => Fl.pinf
  | Fl.pinf, Fl.ninf => Fl.ninf
  | Fl.ninf, Fl.pinf => Fl.ninf
  | Fl.ninf, Fl.ninf => Fl.pinf

/-- IEEE division (exact on finite values).  The rational divisor `0` plays
the role of IEEE `+0` (the code paths modelled here only divide by an exact
zero that arises as `x - x`, which is `+0` in round-to-nearest). -/
def fdiv : Fl → Fl → Fl
  | Fl.nan, _ => Fl.nan
  | _, Fl.nan => Fl.nan
  | Fl.fin a, Fl.fin b =>
      if b = 0 then (if 0 < a then Fl.pinf else if a < 0 then Fl.ninf else Fl.nan)
      else Fl.fin (a / b)
  | Fl.fin _, Fl.pinf => Fl.fin 0
  | Fl.fin _, Fl.ninf => Fl.fin 0
  | Fl.pinf, Fl.fin b => if 0 ≤ b then Fl.pinf else Fl.ninf
  | Fl.ninf, Fl.fin b => if 0 ≤ b then Fl.ninf else Fl.pinf
  | Fl.pinf, Fl.pinf => Fl.nan
  | Fl.pinf, Fl.ninf => Fl.nan
  | Fl.ninf, Fl.pinf => Fl.nan
  | Fl.ninf, Fl.ninf => Fl.nan

/-- Division of two finite values, the entry form used by the code. -/
def fdivq (a b : ℚ) : Fl := fdiv (Fl.fin a) (Fl.fin b)

/-- `std::isnan`. -/
def fisnan : Fl → Bool
  | Fl.nan => true
  | _ => false

/-- IEEE `<=` (false whenever an operand is NaN). -/
def fle : Fl → Fl → Bool
  | Fl.nan, _ => false
  | _, Fl.nan => false
  | Fl.ninf, _ => true
  | _, Fl.ninf => false
  | _, Fl.pinf => true
  | Fl.pinf, _ => false
  | Fl.fin a, Fl.fin b => decide (a ≤ b)

/-- IEEE `<` (false whenever an operand is NaN). -/
def flt : Fl → Fl → Bool
  | Fl.nan, _ => false
  | _, Fl.nan => false
  | Fl.ninf, Fl.ninf => false
  | Fl.ninf, _ => true
  | _, Fl.ninf => false
  | Fl.pinf, _ => false
  | _, Fl.pinf => true
  | Fl.fin a, Fl.fin b => decide (a < b)

/-! ### The 2D integer vector kernel (libosmium `vector.hpp`) -/

/-- The 2D vector over 64-bit integers (`osmium::area::detail::vec`). -/
structure vec where
  x : ℤ
  y : ℤ
deriving DecidableEq

/-- Two's-complement wrap-around to the signed 64-bit range, the de-facto
semantics of `int64_t` arithmetic. -/
def wrap64 (z : ℤ) : ℤ := (z + 2 ^ 63) % 2 ^ 64 - 2 ^ 63

/-- The cross product `operator*(const vec&, const vec&)`
(vector.hpp lines 85-88): `a.x * b.y - a.y * b.x`, with every `int64_t`
operation wrapped. -/
def vecCross (a b : vec) : ℤ :=
  wrap64 (wrap64 (a.x * b.y) - wrap64 (a.y * b.x))

theorem wrap64_congr {a b : ℤ} (h : a % 2 ^ 64 = b % 2 ^ 64) : wrap64 a = wrap64 b := by
  unfold wrap64
  omega

theorem wrap64_mod (z : ℤ) : wrap64 z % 2 ^ 64 = z % 2 ^ 64 := by
  unfold wrap64
  omega

/-! ### Distance metrics (Coordinate.cpp lines 88-153) -/

/-- The literal `0.017453292519943295769236907684886` used by both distance
functions (degrees-to-radians factor). -/
def RAD : ℚ := 17453292519943295769236907684886 / 1000000000000000000000000000000000

/-- The earth radius literal `6372797.560856`. -/
def earthRadius : ℚ := 6372797560856 / 1000000

/-- `FixedPointCoordinate::ApproximateDistance` on four scaled integers
(lines 88-117, haversine).  `sin`, `cos`, `atan2`, `sqrt` and `pow` are libm
functions outside the slice; they enter as abstract parameters, with
`pow(t, 2.0)` modelled as exact squaring. -/
def ApproximateDistance (sinp cosp sqrtp : ℚ → ℚ) (atan2p : ℚ → ℚ → ℚ)
    (lat1 lon1 lat2 lon2 : ℤ) : ℚ :=
  let lt1 := (lat1 : ℚ) / COORDINATE_PRECISION
  let ln1 := (lon1 : ℚ) / COORDINATE_PRECISION
  let lt2 := (lat2 : ℚ) / COORDINATE_PRECISION
  let ln2 := (lon2 : ℚ) / COORDINATE_PRECISION
  let dlat1 := lt1 * RAD
  let dlong1 := ln1 * RAD
  let dlat2 := lt2 * RAD
  let dlong2 := ln2 * RAD
  let dLong := dlong1 - dlong2
  let dLat := dlat1 - dlat2
  let aHarv := (sinp (dLat / 2)) ^ 2 + cosp dlat1 * cosp dlat2 * (sinp (dLong / 2)) ^ 2
  let cHarv := 2 * atan2p (sqrtp aHarv) (sqrtp (1 - aHarv))
  earthRadius * cHarv

/-- The two-coordinate overload of `ApproximateDistance` (lines 119-124). -/
def ApproximateDistanceCoord (sinp cosp sqrtp : ℚ → ℚ) (atan2p : ℚ → ℚ → ℚ)
    (coordinate_1 coordinate_2 : FixedPointCoordinate) : ℚ :=
  ApproximateDistance sinp cosp sqrtp atan2p
    coordinate_1.lat coordinate_1.lon coordinate_2.lat coordinate_2.lon

/-- `FixedPointCoordinate::ApproximateEuclideanDistance` on four scaled
integers (lines 133-153, equirectangular approximation). -/
def ApproximateEuclideanDistance (cosp sqrtp : ℚ → ℚ) (lat1 lon1 lat2 lon2 : ℤ) : ℚ :=
  let float_lat1 := ((lat1 : ℚ) / COORDINATE_PRECISION) * RAD
  let float_lon1 := ((lon1 : ℚ) / COORDINATE_PRECISION) * RAD
  let float_lat2 := ((lat2 : ℚ) / COORDINATE_PRECISION) * RAD
  let float_lon2 := ((lon2 : ℚ) / COORDINATE_PRECISION) * RAD
  let x_value := (float_lon2 - float_lon1) * cosp ((float_lat1 + float_lat2) / 2)
  let y_value := float_lat2 - float_lat1
  sqrtp (x_value * x_value + y_value * y_value) * earthRadius

/-- The two-coordinate overload of `ApproximateEuclideanDistance`
(lines 126-131). -/
def ApproximateEuclideanDistanceCoord (cosp sqrtp : ℚ → ℚ)
    (coordinate_1 coordinate_2 : FixedPointCoordinate) : ℚ :=
  ApproximateEuclideanDistance cosp sqrtp
    coordinate_1.lat coordinate_1.lon coordinate_2.lat coordinate_2.lon

/-! ### Bearing (Coordinate.cpp lines 339-385) -/

/-- The exact value of the double constant `M_PI`. -/
def M_PI : ℚ := 884279719003555 / 281474976710656

/-- `FixedPointCoordinate::DegreeToRadian` (line 383). -/
def DegreeToRadian (degree : ℚ) : ℚ := degree * (M_PI / 180)

/-- `FixedPointCoordinate::RadianToDegree` (line 385). -/
def RadianToDegree (radian : ℚ) : ℚ := radian * (180 / M_PI)

/-- The loop `while (result < 0.f) result += 360.f;`. -/
def wrapAdd360 (r : ℚ) : ℚ :=
  if r < 0 then wrapAdd360 (r + 360) else r
termination_by Int.toNat ⌈-r / 360⌉
decreasing_by
  rename_i h
  have h1 : (0 : ℚ) < -r / 360 := div_pos (by linarith) (by norm_num)
  have h2 : 1 ≤ ⌈-r / 360⌉ := Int.ceil_pos.mpr h1
  have h3 : ⌈-(r + 360) / 360⌉ = ⌈-r / 360⌉ - 1 := by
    have e : -(r + 360) / 360 = -r / 360 - 1 := by ring
    rw [e]
    exact_mod_cast Int.ceil_sub_int (-r / 360) 1
  omega

/-- The loop `while (result >= 360.f) result -= 360.f;`. -/
def wrapSub360 (r : ℚ) : ℚ :=
  if 360 ≤ r then wrapSub360 (r - 360) else r
termination_by Int.toNat ⌊r / 360⌋
decreasing_by
  rename_i h
  have h1 : (1 : ℚ) ≤ r / 360 := by
    rw [le_div_iff₀ (by norm_num : (0:ℚ) < 360)]
    linarith
  have h2 : 1 ≤ ⌊r / 360⌋ := by
    have := Int.le_floor.mpr (by exact_mod_cast h1 : ((1:ℤ) : ℚ) ≤ r / 360)
    omega
  have h3 : ⌊(r - 360) / 360⌋ = ⌊r / 360⌋ - 1 := by
    have e : (r - 360) / 360 = r / 360 - 1 := by ring
    rw [e]
    exact_mod_cast Int.floor_sub_int (r / 360) 1
  omega

theorem wrapAdd360_nonneg (r : ℚ) : 0 ≤ wrapAdd360 r := by
  rw [wrapAdd360]
  split
  · exact wrapAdd360_nonneg (r + 360)
  · linarith [not_lt.mp (by assumption : ¬ r < 0)]
termination_by Int.toNat ⌈-r / 360⌉
decreasing_by
  rename_i h
  have h1 : (0 : ℚ) < -r / 360 := div_pos (by linarith) (by norm_num)
  have h2 : 1 ≤ ⌈-r / 360⌉ := Int.ceil_pos.mpr h1
  have h3 : ⌈-(r + 360) / 360⌉ = ⌈-r / 360⌉ - 1 := by
    have e : -(r + 360) / 360 = -r / 360 - 1 := by ring
    rw [e]
    exact_mod_cast Int.ceil_sub_int (-r / 360) 1
  omega

theorem wrapSub360_nonneg (r : ℚ) (hr : 0 ≤ r) : 0 ≤ wrapSub360 r := by
  rw [wrapSub360]
  split
  · exact wrapSub360_nonneg (r - 360) (by linarith [(by assumption : 360 ≤ r)])
  · exact hr
termination_by Int.toNat ⌊r / 360⌋
decreasing_by
  rename_i h
  have h1 : (1 : ℚ) ≤ r / 360 := by
    rw [le_div_iff₀ (by norm_num : (0:ℚ) < 360)]
    linarith
  have h2 : 1 ≤ ⌊r / 360⌋ := by
    have := Int.le_floor.mpr (by exact_mod_cast h1 : ((1:ℤ) : ℚ) ≤ r / 360)
    omega
  have h3 : ⌊(r - 360) / 360⌋ = ⌊r / 360⌋ - 1 := by
    have e : (r - 360) / 360 = r / 360 - 1 := by ring
    rw [e]
    exact_mod_cast Int.floor_sub_int (r / 360) 1
  omega

theorem wrapSub360_lt (r : ℚ) : wrapSub360 r < 360 := by
  rw [wrapSub360]
  split
  · exact wrapSub360_lt (r - 360)
  · linarith [not_le.mp (by assumption : ¬ 360 ≤ r)]
termination_by Int.toNat ⌊r / 360⌋
decreasing_by
  rename_i h
  have h1 : (1 : ℚ) ≤ r / 360 := by
    rw [le_div_iff₀ (by norm_num : (0:ℚ) < 360)]
    linarith
  have h2 : 1 ≤ ⌊r / 360⌋ := by
    have := Int.le_floor.mpr (by exact_mod_cast h1 : ((1:ℤ) : ℚ) ≤ r / 360)
    omega
  have h3 : ⌊(r - 360) / 360⌋ = ⌊r / 360⌋ - 1 := by
    have e : (r - 360) / 360 = r / 360 - 1 := by ring
    rw [e]
    exact_mod_cast Int.floor_sub_int (r / 360) 1
  omega

/-- The static `FixedPointCoordinate::GetBearing(A, B)` (lines 339-358). -/
def GetBearing (sinp cosp : ℚ → ℚ) (atan2p : ℚ → ℚ → ℚ)
    (A B : FixedPointCoordinate) : ℚ :=
  let delta_long :=
    DegreeToRadian ((B.lon : ℚ) / COORDINATE_PRECISION - (A.lon : ℚ) / COORDINATE_PRECISION)
  let lat1 := DegreeToRadian ((A.lat : ℚ) / COORDINATE_PRECISION)
  let lat2 := DegreeToRadian ((B.lat : ℚ) / COORDINATE_PRECISION)
  let y := sinp delta_long * cosp lat2
  let x := cosp lat1 * sinp lat2 - sinp lat1 * cosp lat2 * cosp delta_long
  wrapSub360 (wrapAdd360 (RadianToDegree (atan2p y x)))

/-- The member `FixedPointCoordinate::GetBearing(other)` (lines 360-381):
bearing from `other` toward `self`. -/
def GetBearingMember (sinp cosp : ℚ → ℚ) (atan2p : ℚ → ℚ → ℚ)
    (self other : FixedPointCoordinate) : ℚ :=
  let delta_long :=
    DegreeToRadian ((self.lon : ℚ) / COORDINATE_PRECISION - (other.lon : ℚ) / COORDINATE_PRECISION)
  let lat1 := DegreeToRadian ((other.lat : ℚ) / COORDINATE_PRECISION)
  let lat2 := DegreeToRadian ((self.lat : ℚ) / COORDINATE_PRECISION)
  let y_value := sinp delta_long * cosp lat2
  let x_value := cosp lat1 * sinp lat2 - sinp lat1 * cosp lat2 * cosp delta_long
  wrapSub360 (wrapAdd360 (RadianToDegree (atan2p y_value x_value)))

/-! ### Segment projection (Coordinate.cpp lines 155-300)

Both C++ overloads of `ComputePerpendicularDistance` are transcribed
separately, each from its own source lines, into a trace record that keeps
every intermediate value so that claims about internal quantities (raw
ratio, resolved ratio, nearest point) can be stated.  The slope `m` is
computed by a hoisted `let`; it is only consumed inside the branch in which
the C++ code computes it, and rational division is total, so hoisting does
not change any value. -/

/-- Trace of one run of the projection algorithm. -/
structure PDTrace where
  x : ℚ
  y : ℚ
  a : ℚ
  b : ℚ
  c : ℚ
  d : ℚ
  m : ℚ
  p : ℚ
  q : ℚ
  nY : Fl
  rawRatio : Fl
  ratio : Fl
  nearest : FixedPointCoordinate
  dist : ℚ
deriving DecidableEq

/-- Transcription of the first overload
`ComputePerpendicularDistance(point, source_coordinate, target_coordinate)`
(lines 155-224), the distance-only entry point. -/
def pd1Trace (lat2y y2lat cosp sqrtp : ℚ → ℚ)
    (point source_coordinate target_coordinate : FixedPointCoordinate) : PDTrace :=
  let x_value : ℚ := lat2y ((point.lat : ℚ) / COORDINATE_PRECISION)
  let y_value : ℚ := (point.lon : ℚ) / COORDINATE_PRECISION
  let a : ℚ := lat2y ((source_coordinate.lat : ℚ) / COORDINATE_PRECISION)
  let b : ℚ := (source_coordinate.lon : ℚ) / COORDINATE_PRECISION
  let c : ℚ := lat2y ((target_coordinate.lat : ℚ) / COORDINATE_PRECISION)
  let d : ℚ := (target_coordinate.lon : ℚ) / COORDINATE_PRECISION
  let slope : ℚ := (d - b) / (c - a)
  let p : ℚ :=
    if flt_epsilon < |a - c| then
      ((x_value + (slope * y_value)) + (slope * slope * a - slope * b)) / (1 + slope * slope)
    else c
  let q : ℚ := if flt_epsilon < |a - c| then b + slope * (p - a) else y_value
  let nY0 : Fl := fdivq (d * p - c * q) (a * d - b * c)
  let nY : Fl := if flt (fabs nY0) (Fl.fin (1 / COORDINATE_PRECISION)) = true then Fl.fin 0 else nY0
  let rawRatio : Fl := fdiv (fsub (Fl.fin p) (fmul nY (Fl.fin a))) (Fl.fin c)
  let ratio : Fl :=
    if fisnan rawRatio = true then
      Fl.fin (if target_coordinate.lat = point.lat ∧ target_coordinate.lon = point.lon then 1 else 0)
    else if fle (fabs rawRatio) (Fl.fin flt_epsilon) = true then Fl.fin 0
    else if fle (fabs (fsub rawRatio (Fl.fin 1))) (Fl.fin flt_epsilon) = true then Fl.fin 1
    else rawRatio
  let nearest_location : FixedPointCoordinate :=
    if fle ratio (Fl.fin 0) = true then
      ⟨source_coordinate.lat, source_coordinate.lon⟩
    else if fle (Fl.fin 1) ratio = true then
      ⟨target_coordinate.lat, target_coordinate.lon⟩
    else
      ⟨truncQ (y2lat p * COORDINATE_PRECISION), truncQ (q * COORDINATE_PRECISION)⟩
  let approximate_distance : ℚ :=
    ApproximateEuclideanDistanceCoord cosp sqrtp point nearest_location
  ⟨x_value, y_value, a, b, c, d, slope, p, q, nY, rawRatio, ratio, nearest_location,
    approximate_distance⟩

/-- Transcription of the second overload
`ComputePerpendicularDistance(coord_a, coord_b, query_location,
nearest_location, ratio)` (lines 226-300), the three-output entry point. -/
def pd2Trace (lat2y y2lat cosp sqrtp : ℚ → ℚ)
    (coord_a coord_b query_location : FixedPointCoordinate) : PDTrace :=
  let x : ℚ := lat2y ((query_location.lat : ℚ) / COORDINATE_PRECISION)
  let y : ℚ := (query_location.lon : ℚ) / COORDINATE_PRECISION
  let a : ℚ := lat2y ((coord_a.lat : ℚ) / COORDINATE_PRECISION)
  let b : ℚ := (coord_a.lon : ℚ) / COORDINATE_PRECISION
  let c : ℚ := lat2y ((coord_b.lat : ℚ) / COORDINATE_PRECISION)
  let d : ℚ := (coord_b.lon : ℚ) / COORDINATE_PRECISION
  let m : ℚ := (d - b) / (c - a)
  let p : ℚ :=
    if flt_epsilon < |a - c| then
      ((x + (m * y)) + (m * m * a - m * b)) / (1 + m * m)
    else c
  let q : ℚ := if flt_epsilon < |a - c| then b + m * (p - a) else y
  let nY0 : Fl := fdivq (d * p - c * q) (a * d - b * c)
  let nY : Fl := if flt (fabs nY0) (Fl.fin (1 / COORDINATE_PRECISION)) = true then Fl.fin 0 else nY0
  let rawRatio : Fl := fdiv (fsub (Fl.fin p) (fmul nY (Fl.fin a))) (Fl.fin c)
  let ratio : Fl :=
    if fisnan rawRatio = true then
      Fl.fin (if coord_b.lat = query_location.lat ∧ coord_b.lon = query_location.lon then 1 else 0)
    else if fle (fabs rawRatio) (Fl.fin flt_epsilon) = true then Fl.fin 0
    else if fle (fabs (fsub rawRatio (Fl.fin 1))) (Fl.fin flt_epsilon) = true then Fl.fin 1
    else rawRatio
  let nearest_location : FixedPointCoordinate :=
    if fle ratio (Fl.fin 0) = true then coord_a
    else if fle (Fl.fin 1) ratio = true then coord_b
    else ⟨truncQ (y2lat p * COORDINATE_PRECISION), truncQ (q * COORDINATE_PRECISION)⟩
  let approximate_distance : ℚ :=
    ApproximateEuclideanDistanceCoord cosp sqrtp query_location nearest_location
  ⟨x, y, a, b, c, d, m, p, q, nY, rawRatio, ratio, nearest_location, approximate_distance⟩

/-- The distance-only public entry point (first overload's return value). -/
def ComputePerpendicularDistanceDistOnly (lat2y y2lat cosp sqrtp : ℚ → ℚ)
    (point source_coordinate target_coordinate : FixedPointCoordinate) : ℚ :=
  (pd1Trace lat2y y2lat cosp sqrtp point source_coordinate target_coordinate).dist

/-- The three-output public entry point (second overload): returned distance,
`nearest_location` output parameter and `ratio` output parameter. -/
def ComputePerpendicularDistanceFull (lat2y y2lat cosp sqrtp : ℚ → ℚ)
    (coord_a coord_b query_location : FixedPointCoordinate) :
    ℚ × FixedPointCoordinate × Fl :=
  ((pd2Trace lat2y y2lat cosp sqrtp coord_a coord_b query_location).dist,
   (pd2Trace lat2y y2lat cosp sqrtp coord_a coord_b query_location).nearest,
   (pd2Trace lat2y y2lat cosp sqrtp coord_a coord_b query_location).ratio)

/-! ### Ordering-only integer approximation (Coordinate.cpp lines 390-443) -/

/-- Transcription of
`FixedPointCoordinate::OrderedPerpendicularDistanceApproximation`
(lines 390-443).  Note the differences from the projection overloads, all
present in the source: the vertical-segment test is the exact `a != c`, the
`nY` discretization snap is absent, the epsilon ratio snaps are absent, and
the endpoint selection uses strict comparisons `ratio < 0` / `ratio > 1`.
The `int` squares `dx*dx + dy*dy` are modelled exactly (32-bit overflow is
not modelled). -/
def OrderedPerpendicularDistanceApproximation (lat2y y2lat sqrtp : ℚ → ℚ)
    (input_point segment_source segment_target : FixedPointCoordinate) : ℤ :=
  let x : ℚ := lat2y ((input_point.lat : ℚ) / COORDINATE_PRECISION)
  let y : ℚ := (input_point.lon : ℚ) / COORDINATE_PRECISION
  let a : ℚ := lat2y ((segment_source.lat : ℚ) / COORDINATE_PRECISION)
  let b : ℚ := (segment_source.lon : ℚ) / COORDINATE_PRECISION
  let c : ℚ := lat2y ((segment_target.lat : ℚ) / COORDINATE_PRECISION)
  let d : ℚ := (segment_target.lon : ℚ) / COORDINATE_PRECISION
  let m : ℚ := (d - b) / (c - a)
  let p : ℚ :=
    if a ≠ c then ((x + (m * y)) + (m * m * a - m * b)) / (1 + m * m) else c
  let q : ℚ := if a ≠ c then b + m * (p - a) else y
  let nY : Fl := fdivq (d * p - c * q) (a * d - b * c)
  let rawRatio : Fl := fdiv (fsub (Fl.fin p) (fmul nY (Fl.fin a))) (Fl.fin c)
  let ratio : Fl :=
    if fisnan rawRatio = true then
      Fl.fin (if segment_target = input_point then 1 else 0)
    else rawRatio
  let dxy : ℤ × ℤ :=
    if flt ratio (Fl.fin 0) = true then
      (input_point.lon - segment_source.lon, input_point.lat - segment_source.lat)
    else if flt (Fl.fin 1) ratio = true then
      (input_point.lon - segment_target.lon, input_point.lat - segment_target.lat)
    else
      (truncQ ((input_point.lon : ℚ) - q * COORDINATE_PRECISION),
       truncQ ((input_point.lat : ℚ) - y2lat p * COORDINATE_PRECISION))
  truncQ (sqrtp (((dxy.1 * dxy.1 + dxy.2 * dxy.2 : ℤ) : ℚ)))

/-- Formalisation of claim C6's description of the ordering-only
approximation, following the spec's words: project with the Segment
Projection core math, then return the integer-truncated planar Euclidean
distance between the query point and whichever of source / target /
projected foot is selected by the ratio test with `ratio ≤ 0` selecting the
source and `ratio ≥ 1` selecting the target. -/
def SpecOrderedDistance (lat2y y2lat sqrtp : ℚ → ℚ)
    (input_point segment_source segment_target : FixedPointCoordinate) : ℤ :=
  let x : ℚ := lat2y ((input_point.lat : ℚ) / COORDINATE_PRECISION)
  let y : ℚ := (input_point.lon : ℚ) / COORDINATE_PRECISION
  let a : ℚ := lat2y ((segment_source.lat : ℚ) / COORDINATE_PRECISION)
  let b : ℚ := (segment_source.lon : ℚ) / COORDINATE_PRECISION
  let c : ℚ := lat2y ((segment_target.lat : ℚ) / COORDINATE_PRECISION)
  let d : ℚ := (segment_target.lon : ℚ) / COORDINATE_PRECISION
  let m : ℚ := (d - b) / (c - a)
  let p : ℚ :=
    if a ≠ c then ((x + (m * y)) + (m * m * a - m * b)) / (1 + m * m) else c
  let q : ℚ := if a ≠ c then b + m * (p - a) else y
  let nY : Fl := fdivq (d * p - c * q) (a * d - b * c)
  let rawRatio : Fl := fdiv (fsub (Fl.fin p) (fmul nY (Fl.fin a))) (Fl.fin c)
  let ratio : Fl :=
    if fisnan rawRatio = true then
      Fl.fin (if segment_target = input_point then 1 else 0)
    else rawRatio
  let nearestPlanar : ℚ × ℚ :=
    if fle ratio (Fl.fin 0) = true then ((segment_source.lon : ℚ), (segment_source.lat : ℚ))
    else if fle (Fl.fin 1) ratio = true then ((segment_target.lon : ℚ), (segment_target.lat : ℚ))
    else (q * COORDINATE_PRECISION, y2lat p * COORDINATE_PRECISION)
  let dx : ℤ := truncQ ((input_point.lon : ℚ) - nearestPlanar.1)
  let dy : ℤ := truncQ ((input_point.lat : ℚ) - nearestPlanar.2)
  truncQ (sqrtp (((dx * dx + dy * dy : ℤ) : ℚ)))

/-- The amended selection rule for claim C6: identical to
`SpecOrderedDistance` except that the source is selected only for
`ratio < 0` and the target only for `ratio > 1`; boundary ratios `0` and `1`
(including the NaN fallback values) use the projected foot. -/
def SpecOrderedDistanceStrict (lat2y y2lat sqrtp : ℚ → ℚ)
    (input_point segment_source segment_target : FixedPointCoordinate) : ℤ :=
  let x : ℚ := lat2y ((input_point.lat : ℚ) / COORDINATE_PRECISION)
  let y : ℚ := (input_point.lon : ℚ) / COORDINATE_PRECISION
  let a : ℚ := lat2y ((segment_source.lat : ℚ) / COORDINATE_PRECISION)
  let b : ℚ := (segment_source.lon : ℚ) / COORDINATE_PRECISION
  let c : ℚ := lat2y ((segment_target.lat : ℚ) / COORDINATE_PRECISION)
  let d : ℚ := (segment_target.lon : ℚ) / COORDINATE_PRECISION
  let m : ℚ := (d - b) / (c - a)
  let p : ℚ :=
    if a ≠ c then ((x + (m * y)) + (m * m * a - m * b)) / (1 + m * m) else c
  let q : ℚ := if a ≠ c then b + m * (p - a) else y
  let nY : Fl := fdivq (d * p - c * q) (a * d - b * c)
  let rawRatio : Fl := fdiv (fsub (Fl.fin p) (fmul nY (Fl.fin a))) (Fl.fin c)
  let ratio : Fl :=
    if fisnan rawRatio = true then
      Fl.fin (if segment_target = input_point then 1 else 0)
    else rawRatio
  let nearestPlanar : ℚ × ℚ :=
    if flt ratio (Fl.fin 0) = true then ((segment_source.lon : ℚ), (segment_source.lat : ℚ))
    else if flt (Fl.fin 1) ratio = true then ((segment_target.lon : ℚ), (segment_target.lat : ℚ))
    else (q * COORDINATE_PRECISION, y2lat p * COORDINATE_PRECISION)
  let dx : ℤ := truncQ ((input_point.lon : ℚ) - nearestPlanar.1)
  let dy : ℤ := truncQ ((input_point.lat : ℚ) - nearestPlanar.2)
  truncQ (sqrtp (((dx * dx + dy * dy : ℤ) : ℚ)))

/-! ### Claims C9, C10, C7, C1 -/

/-- Claim C9: a coordinate that is not set (some field holds the
`int`-minimum sentinel) is never valid; in particular a default-constructed
coordinate and a coordinate after `Reset()` are invalid. -/
theorem C9_unset_never_valid :
    (∀ c : FixedPointCoordinate, c.isSet = false → c.isValid = false) ∧
    FixedPointCoordinate.defaultInit.isValid = false ∧
    (∀ c : FixedPointCoordinate, c.Reset.isValid = false) := by
  have main : ∀ c : FixedPointCoordinate, c.isSet = false → c.isValid = false := by
    intro c h
    simp only [FixedPointCoordinate.isSet, Bool.and_eq_false_iff,
      decide_eq_false_iff_not, not_not] at h
    simp only [FixedPointCoordinate.isValid]
    split
    · rfl
    · rename_i hcon
      exfalso
      apply hcon
      rcases h with h | h
      · refine Or.inr (Or.inl ?_)
        rw [← h]
        norm_num [intMin, COORDINATE_PRECISION]
      · refine Or.inr (Or.inr (Or.inr ?_))
        rw [← h]
        norm_num [intMin, COORDINATE_PRECISION]
  have hsen : FixedPointCoordinate.isSet ⟨intMin, intMin⟩ = false := by
    simp [FixedPointCoordinate.isSet]
  exact ⟨main, main _ hsen, fun c => main _ hsen⟩

/-- Claim C9 witness: the sentinel coordinate itself. -/
theorem C9_unset_never_valid_witness :
    FixedPointCoordinate.isSet ⟨intMin, intMin⟩ = false ∧
    FixedPointCoordinate.isValid ⟨intMin, intMin⟩ = false :=
  ⟨by simp [FixedPointCoordinate.isSet],
   C9_unset_never_valid.1 ⟨intMin, intMin⟩ (by simp [FixedPointCoordinate.isSet])⟩

/-- Claim C10: the 2D integer cross product is anti-commutative modulo
`2^64` (the negation itself taken with 64-bit wrap-around), and the cross
product of a vector with itself is zero. -/
theorem C10_cross_antisymm :
    (∀ a b : vec, vecCross a b = wrap64 (-(vecCross b a))) ∧
    (∀ a : vec, vecCross a a = 0) := by
  constructor
  · intro a b
    unfold vecCross
    apply wrap64_congr
    rw [mul_comm b.x a.y, mul_comm b.y a.x]
    generalize a.x * b.y = p
    generalize a.y * b.x = q
    unfold wrap64
    omega
  · intro a
    unfold vecCross
    rw [mul_comm a.y a.x]
    generalize a.x * a.y = p
    unfold wrap64
    omega

/-- Claim C7: both `GetBearing` entry points return a value in
`[0, 360)` for every pair of coordinates and all transcendental
parameters. -/
theorem C7_bearing_in_range (sinp cosp : ℚ → ℚ) (atan2p : ℚ → ℚ → ℚ)
    (A B : FixedPointCoordinate) :
    (0 ≤ GetBearing sinp cosp atan2p A B ∧ GetBearing sinp cosp atan2p A B < 360) ∧
    (0 ≤ GetBearingMember sinp cosp atan2p A B ∧
      GetBearingMember sinp cosp atan2p A B < 360) := by
  refine ⟨⟨?_, ?_⟩, ?_, ?_⟩
  · exact wrapSub360_nonneg _ (wrapAdd360_nonneg _)
  · exact wrapSub360_lt _
  · exact wrapSub360_nonneg _ (wrapAdd360_nonneg _)
  · exact wrapSub360_lt _

/-- The two transcriptions of `ComputePerpendicularDistance` are the same
function of their inputs (the C++ bodies are verbatim duplicates up to
variable naming). -/
theorem pdTraces_eq (lat2y y2lat cosp sqrtp : ℚ → ℚ)
    (P S T : FixedPointCoordinate) :
    pd1Trace lat2y y2lat cosp sqrtp P S T = pd2Trace lat2y y2lat cosp sqrtp S T P := rfl

/-- Claim C1: the distance-only entry point returns the same distance as the
three-output entry point on the same query/segment, and the two variants
produce identical internal traces. -/
theorem C1_variants_identical (lat2y y2lat cosp sqrtp : ℚ → ℚ)
    (P S T : FixedPointCoordinate) :
    ComputePerpendicularDistanceDistOnly lat2y y2lat cosp sqrtp P S T =
      (ComputePerpendicularDistanceFull lat2y y2lat cosp sqrtp S T P).1 ∧
    pd1Trace lat2y y2lat cosp sqrtp P S T = pd2Trace lat2y y2lat cosp sqrtp S T P :=
  ⟨rfl, rfl⟩

/-! ### Claim C8: symmetry of the two point-to-point distances -/

/-- Claim C8: both point-to-point distance functions are symmetric in their
arguments, for set and valid coordinates, provided the `sin` parameter is an
odd function (which the real `sin` is, exactly, also in floating point). -/
theorem C8_distance_symmetric (sinp cosp sqrtp : ℚ → ℚ) (atan2p : ℚ → ℚ → ℚ)
    (hsin : ∀ u : ℚ, sinp (-u) = -sinp u)
    (a b : FixedPointCoordinate)
    (hsa : a.isSet = true) (hsb : b.isSet = true)
    (hva : a.isValid = true) (hvb : b.isValid = true) :
    ApproximateDistanceCoord sinp cosp sqrtp atan2p a b =
      ApproximateDistanceCoord sinp cosp sqrtp atan2p b a ∧
    ApproximateEuclideanDistanceCoord cosp sqrtp a b =
      ApproximateEuclideanDistanceCoord cosp sqrtp b a := by
  constructor
  · simp only [ApproximateDistanceCoord, ApproximateDistance]
    have key : ∀ u v w z : ℚ,
        (sinp ((v - u) / 2)) ^ 2 + cosp v * cosp u * (sinp ((z - w) / 2)) ^ 2 =
          (sinp ((u - v) / 2)) ^ 2 + cosp u * cosp v * (sinp ((w - z) / 2)) ^ 2 := by
      intro u v w z
      rw [show (v - u) / 2 = -((u - v) / 2) by ring,
        show (z - w) / 2 = -((w - z) / 2) by ring, hsin, hsin]
      ring
    rw [key]
  · simp only [ApproximateEuclideanDistanceCoord, ApproximateEuclideanDistance]
    have key : ∀ u v w z : ℚ,
        ((w - z) * cosp ((v + u) / 2)) * ((w - z) * cosp ((v + u) / 2)) + (u - v) * (u - v) =
          ((z - w) * cosp ((u + v) / 2)) * ((z - w) * cosp ((u + v) / 2)) + (v - u) * (v - u) := by
      intro u v w z
      rw [show (v + u) / 2 = (u + v) / 2 by ring]
      ring
    rw [key]

/-- Claim C8 witness at concrete inputs, with `sin` instantiated to the odd
function `fun u => u`. -/
theorem C8_distance_symmetric_witness :
    ((⟨1, 2⟩ : FixedPointCoordinate).isSet = true ∧
      (⟨3, 4⟩ : FixedPointCoordinate).isSet = true ∧
      (⟨1, 2⟩ : FixedPointCoordinate).isValid = true ∧
      (⟨3, 4⟩ : FixedPointCoordinate).isValid = true) ∧
    (ApproximateDistanceCoord (fun u => u) (fun u => u) (fun u => u) (fun u v => u + v)
        ⟨1, 2⟩ ⟨3, 4⟩ =
      ApproximateDistanceCoord (fun u => u) (fun u => u) (fun u => u) (fun u v => u + v)
        ⟨3, 4⟩ ⟨1, 2⟩ ∧
    ApproximateEuclideanDistanceCoord (fun u => u) (fun u => u) ⟨1, 2⟩ ⟨3, 4⟩ =
      ApproximateEuclideanDistanceCoord (fun u => u) (fun u => u) ⟨3, 4⟩ ⟨1, 2⟩) :=
  ⟨⟨by simp [FixedPointCoordinate.isSet, intMin],
    by simp [FixedPointCoordinate.isSet, intMin],
    by norm_num [FixedPointCoordinate.isValid, COORDINATE_PRECISION],
    by norm_num [FixedPointCoordinate.isValid, COORDINATE_PRECISION]⟩,
   C8_distance_symmetric (fun u => u) (fun u => u) (fun u => u) (fun u v => u + v)
     (fun _ => rfl) ⟨1, 2⟩ ⟨3, 4⟩
     (by simp [FixedPointCoordinate.isSet, intMin])
     (by simp [FixedPointCoordinate.isSet, intMin])
     (by norm_num [FixedPointCoordinate.isValid, COORDINATE_PRECISION])
     (by norm_num [FixedPointCoordinate.isValid, COORDINATE_PRECISION])⟩

/-! ### Helper lemmas on the float model -/

@[simp] theorem fisnan_fin (q : ℚ) : fisnan (Fl.fin q) = false := rfl

@[simp] theorem fisnan_pinf : fisnan Fl.pinf = false := rfl

@[simp] theorem fisnan_ninf : fisnan Fl.ninf = false := rfl

@[simp] theorem fisnan_nan : fisnan Fl.nan = true := rfl

@[simp] theorem fabs_fin (q : ℚ) : fabs (Fl.fin q) = Fl.fin |q| := rfl

@[simp] theorem fabs_pinf : fabs Fl.pinf = Fl.pinf := rfl

@[simp] theorem fabs_ninf : fabs Fl.ninf = Fl.pinf := rfl

@[simp] theorem fabs_nan : fabs Fl.nan = Fl.nan := rfl

@[simp] theorem fmul_fin_fin (a b : ℚ) : fmul (Fl.fin a) (Fl.fin b) = Fl.fin (a * b) := rfl

@[simp] theorem fmul_nan_left (x : Fl) : fmul Fl.nan x = Fl.nan := by cases x <;> rfl

@[simp] theorem fmul_nan_right (x : Fl) : fmul x Fl.nan = Fl.nan := by cases x <;> rfl

theorem fmul_pinf_fin_pos {b : ℚ} (h : 0 < b) : fmul Fl.pinf (Fl.fin b) = Fl.pinf := by
  simp [fmul, h]

theorem fmul_pinf_fin_neg {b : ℚ} (h : b < 0) : fmul Fl.pinf (Fl.fin b) = Fl.ninf := by
  simp [fmul, h, not_lt.mpr h.le]

theorem fmul_ninf_fin_pos {b : ℚ} (h : 0 < b) : fmul Fl.ninf (Fl.fin b) = Fl.ninf := by
  simp [fmul, h]

theorem fmul_ninf_fin_neg {b : ℚ} (h : b < 0) : fmul Fl.ninf (Fl.fin b) = Fl.pinf := by
  simp [fmul, h, not_lt.mpr h.le]

@[simp] theorem fsub_fin_fin (a b : ℚ) : fsub (Fl.fin a) (Fl.fin b) = Fl.fin (a - b) := by
  simp [fsub, fadd, fneg, sub_eq_add_neg]

@[simp] theorem fsub_fin_nan (a : ℚ) : fsub (Fl.fin a) Fl.nan = Fl.nan := rfl

@[simp] theorem fsub_fin_pinf (a : ℚ) : fsub (Fl.fin a) Fl.pinf = Fl.ninf := rfl

@[simp] theorem fsub_fin_ninf (a : ℚ) : fsub (Fl.fin a) Fl.ninf = Fl.pinf := rfl

@[simp] theorem fsub_pinf_fin (b : ℚ) : fsub Fl.pinf (Fl.fin b) = Fl.pinf := rfl

@[simp] theorem fsub_ninf_fin (b : ℚ) : fsub Fl.ninf (Fl.fin b) = Fl.ninf := rfl

@[simp] theorem fdiv_nan_left (x : Fl) : fdiv Fl.nan x = Fl.nan := by cases x <;> rfl

@[simp] theorem fdiv_nan_right (x : Fl) : fdiv x Fl.nan = Fl.nan := by cases x <;> rfl

theorem fdiv_fin_fin {b : ℚ} (a : ℚ) (hb : b ≠ 0) :
    fdiv (Fl.fin a) (Fl.fin b) = Fl.fin (a / b) := by
  simp [fdiv, hb]

theorem fdiv_zero_zero : fdiv (Fl.fin 0) (Fl.fin 0) = Fl.nan := by
  simp [fdiv]

theorem fdiv_pinf_fin_nonneg {c : ℚ} (h : 0 ≤ c) : fdiv Fl.pinf (Fl.fin c) = Fl.pinf := by
  simp [fdiv, h]

theorem fdiv_pinf_fin_neg {c : ℚ} (h : c < 0) : fdiv Fl.pinf (Fl.fin c) = Fl.ninf := by
  simp [fdiv, not_le.mpr h]

theorem fdiv_ninf_fin_nonneg {c : ℚ} (h : 0 ≤ c) : fdiv Fl.ninf (Fl.fin c) = Fl.ninf := by
  simp [fdiv, h]

theorem fdiv_ninf_fin_neg {c : ℚ} (h : c < 0) : fdiv Fl.ninf (Fl.fin c) = Fl.pinf := by
  simp [fdiv, not_le.mpr h]

theorem fdivq_self {D : ℚ} (h : D ≠ 0) : fdivq D D = Fl.fin 1 := by
  simp [fdivq, fdiv, h, div_self h]

theorem fdivq_zero_zero : fdivq 0 0 = Fl.nan := by
  simp [fdivq, fdiv]

theorem fdivq_pos_zero {a : ℚ} (h : 0 < a) : fdivq a 0 = Fl.pinf := by
  simp [fdivq, fdiv, h]

theorem fdivq_neg_zero {a : ℚ} (h : a < 0) : fdivq a 0 = Fl.ninf := by
  simp [fdivq, fdiv, h, not_lt.mpr h.le]

@[simp] theorem fle_fin_fin (a b : ℚ) : fle (Fl.fin a) (Fl.fin b) = decide (a ≤ b) := rfl

@[simp] theorem fle_ninf_fin (b : ℚ) : fle Fl.ninf (Fl.fin b) = true := rfl

@[simp] theorem fle_pinf_fin (b : ℚ) : fle Fl.pinf (Fl.fin b) = false := rfl

@[simp] theorem fle_fin_pinf (a : ℚ) : fle (Fl.fin a) Fl.pinf = true := rfl

@[simp] theorem fle_fin_ninf (a : ℚ) : fle (Fl.fin a) Fl.ninf = false := rfl

@[simp] theorem flt_fin_fin (a b : ℚ) : flt (Fl.fin a) (Fl.fin b) = decide (a < b) := rfl

@[simp] theorem flt_pinf_fin (b : ℚ) : flt Fl.pinf (Fl.fin b) = false := rfl

@[simp] theorem flt_ninf_fin (b : ℚ) : flt Fl.ninf (Fl.fin b) = true := rfl

@[simp] theorem flt_fin_pinf (a : ℚ) : flt (Fl.fin a) Fl.pinf = true := rfl

@[simp] theorem flt_fin_ninf (a : ℚ) : flt (Fl.fin a) Fl.ninf = false := rfl

@[simp] theorem flt_nan_left (x : Fl) : flt Fl.nan x = false := by cases x <;> rfl

@[simp] theorem flt_nan_right (x : Fl) : flt x Fl.nan = false := by cases x <;> rfl

/-! ### Generic lemmas about the ratio resolution and endpoint selection -/

theorem resolve_of_nan (raw : Fl) (P : Prop) [Decidable P] (h : fisnan raw = true) :
    (if fisnan raw = true then Fl.fin (if P then (1 : ℚ) else 0)
     else if fle (fabs raw) (Fl.fin flt_epsilon) = true then Fl.fin 0
     else if fle (fabs (fsub raw (Fl.fin 1))) (Fl.fin flt_epsilon) = true then Fl.fin 1
     else raw) = Fl.fin (if P then 1 else 0) :=
  if_pos h

theorem resolve_not_nan (raw : Fl) (P : Prop) [Decidable P] :
    fisnan
      (if fisnan raw = true then Fl.fin (if P then (1 : ℚ) else 0)
       else if fle (fabs raw) (Fl.fin flt_epsilon) = true then Fl.fin 0
       else if fle (fabs (fsub raw (Fl.fin 1))) (Fl.fin flt_epsilon) = true then Fl.fin 1
       else raw) = false := by
  by_cases h1 : fisnan raw = true
  · rw [if_pos h1]
    rfl
  · rw [if_neg h1]
    by_cases h2 : fle (fabs raw) (Fl.fin flt_epsilon) = true
    · rw [if_pos h2]
      rfl
    · rw [if_neg h2]
      by_cases h3 : fle (fabs (fsub raw (Fl.fin 1))) (Fl.fin flt_epsilon) = true
      · rw [if_pos h3]
        rfl
      · rw [if_neg h3]
        simpa using h1

theorem resolve_snap0 (u : ℚ) (P : Prop) [Decidable P] (h : |u| ≤ flt_epsilon) :
    (if fisnan (Fl.fin u) = true then Fl.fin (if P then (1 : ℚ) else 0)
     else if fle (fabs (Fl.fin u)) (Fl.fin flt_epsilon) = true then Fl.fin 0
     else if fle (fabs (fsub (Fl.fin u) (Fl.fin 1))) (Fl.fin flt_epsilon) = true then Fl.fin 1
     else Fl.fin u) = Fl.fin 0 := by
  rw [if_neg (by simp), if_pos (by simp [h])]

theorem resolve_snap1 (u : ℚ) (P : Prop) [Decidable P] (h : |u - 1| ≤ flt_epsilon) :
    (if fisnan (Fl.fin u) = true then Fl.fin (if P then (1 : ℚ) else 0)
     else if fle (fabs (Fl.fin u)) (Fl.fin flt_epsilon) = true then Fl.fin 0
     else if fle (fabs (fsub (Fl.fin u) (Fl.fin 1))) (Fl.fin flt_epsilon) = true then Fl.fin 1
     else Fl.fin u) = Fl.fin 1 := by
  have h0 : ¬ |u| ≤ flt_epsilon := by
    have h1 : -flt_epsilon ≤ u - 1 := (abs_le.mp h).1
    intro hc
    have h2 : u ≤ flt_epsilon := (abs_le.mp hc).2
    rw [flt_epsilon] at h1 h2
    linarith
  rw [if_neg (by simp), if_neg (by simp [h0]), if_pos (by simp [h])]

theorem select_fin0 {r : Fl} (h : r = Fl.fin 0) (A B C : FixedPointCoordinate) :
    (if fle r (Fl.fin 0) = true then A else if fle (Fl.fin 1) r = true then B else C) = A := by
  rw [h, if_pos (by simp)]

theorem select_fin1 {r : Fl} (h : r = Fl.fin 1) (A B C : FixedPointCoordinate) :
    (if fle r (Fl.fin 0) = true then A else if fle (Fl.fin 1) r = true then B else C) = B := by
  rw [h, if_neg (by norm_num), if_pos (by simp)]

theorem select_ninf {r : Fl} (h : r = Fl.ninf) (A B C : FixedPointCoordinate) :
    (if fle r (Fl.fin 0) = true then A else if fle (Fl.fin 1) r = true then B else C) = A := by
  rw [h, if_pos (by simp)]

theorem select_pinf {r : Fl} (h : r = Fl.pinf) (A B C : FixedPointCoordinate) :
    (if fle r (Fl.fin 0) = true then A else if fle (Fl.fin 1) r = true then B else C) = B := by
  rw [h, if_neg (by simp), if_pos (by simp)]

/-! ### Claim C3: NaN fallback for the projection ratio -/

/-- Claim C3: in both `ComputePerpendicularDistance` variants, whenever the
raw projection-ratio computation yields NaN, the resolved ratio is exactly 1
if the query equals the segment target field-wise and exactly 0 otherwise;
and the ratio used for selection (and output to the caller) is never NaN. -/
theorem C3_nan_fallback (lat2y y2lat cosp sqrtp : ℚ → ℚ)
    (A B Q : FixedPointCoordinate) :
    (fisnan (pd2Trace lat2y y2lat cosp sqrtp A B Q).rawRatio = true →
      (pd2Trace lat2y y2lat cosp sqrtp A B Q).ratio =
        Fl.fin (if B.lat = Q.lat ∧ B.lon = Q.lon then 1 else 0)) ∧
    fisnan (pd2Trace lat2y y2lat cosp sqrtp A B Q).ratio = false ∧
    (fisnan (pd1Trace lat2y y2lat cosp sqrtp Q A B).rawRatio = true →
      (pd1Trace lat2y y2lat cosp sqrtp Q A B).ratio =
        Fl.fin (if B.lat = Q.lat ∧ B.lon = Q.lon then 1 else 0)) ∧
    fisnan (pd1Trace lat2y y2lat cosp sqrtp Q A B).ratio = false := by
  refine ⟨fun h => ?_, ?_, fun h => ?_, ?_⟩
  · exact resolve_of_nan _ _ h
  · exact resolve_not_nan _ _
  · exact resolve_of_nan _ _ h
  · exact resolve_not_nan _ _

/-- Claim C3 witness: a meridian segment (both longitudes zero) makes
`a*d - b*c` an exact zero, so the raw ratio is genuinely NaN; the query does
not equal the target, so the fallback resolves the ratio to 0. -/
theorem C3_nan_fallback_witness :
    fisnan (pd2Trace id id id id ⟨0, 0⟩ ⟨1000000, 0⟩ ⟨500000, 1000000⟩).rawRatio = true ∧
    (pd2Trace id id id id ⟨0, 0⟩ ⟨1000000, 0⟩ ⟨500000, 1000000⟩).ratio =
      Fl.fin
        (if (⟨1000000, 0⟩ : FixedPointCoordinate).lat =
              (⟨500000, 1000000⟩ : FixedPointCoordinate).lat ∧
            (⟨1000000, 0⟩ : FixedPointCoordinate).lon =
              (⟨500000, 1000000⟩ : FixedPointCoordinate).lon
         then 1 else 0) := by
  have hnan :
      fisnan (pd2Trace id id id id ⟨0, 0⟩ ⟨1000000, 0⟩ ⟨500000, 1000000⟩).rawRatio = true := by
    norm_num [pd2Trace, fdivq, fdiv, fmul, fsub, fadd, fneg, fabs, flt, fle, fisnan,
      COORDINATE_PRECISION, flt_epsilon, id]
  exact ⟨hnan, (C3_nan_fallback id id id id ⟨0, 0⟩ ⟨1000000, 0⟩ ⟨500000, 1000000⟩).1 hnan⟩

/-- Proof-side name for the ratio resolution chain shared by the two
projection overloads (NaN fallback, then the two epsilon snaps). -/
def resolveRatio (raw : Fl) (P : Prop) [Decidable P] : Fl :=
  if fisnan raw = true then Fl.fin (if P then (1 : ℚ) else 0)
  else if fle (fabs raw) (Fl.fin flt_epsilon) = true then Fl.fin 0
  else if fle (fabs (fsub raw (Fl.fin 1))) (Fl.fin flt_epsilon) = true then Fl.fin 1
  else raw

/-- Proof-side name for the endpoint selection chain. -/
def selectNearest (ratio : Fl) (A B C : FixedPointCoordinate) : FixedPointCoordinate :=
  if fle ratio (Fl.fin 0) = true then A
  else if fle (Fl.fin 1) ratio = true then B
  else C

theorem resolveRatio_snap0 (u : ℚ) (P : Prop) [Decidable P] (h : |u| ≤ flt_epsilon) :
    resolveRatio (Fl.fin u) P = Fl.fin 0 :=
  resolve_snap0 u P h

theorem resolveRatio_snap1 (u : ℚ) (P : Prop) [Decidable P] (h : |u - 1| ≤ flt_epsilon) :
    resolveRatio (Fl.fin u) P = Fl.fin 1 :=
  resolve_snap1 u P h

/-! ### Claim C5: epsilon snapping of the ratio -/

/-- Claim C5: in both variants, a non-NaN raw ratio within float epsilon of 0
is snapped to exactly 0 and selects the source endpoint, and one within float
epsilon of 1 is snapped to exactly 1 and selects the target endpoint. -/
theorem C5_eps_snapping (lat2y y2lat cosp sqrtp : ℚ → ℚ)
    (A B Q : FixedPointCoordinate) (u : ℚ) :
    ((pd2Trace lat2y y2lat cosp sqrtp A B Q).rawRatio = Fl.fin u →
      ((|u| ≤ flt_epsilon →
          (pd2Trace lat2y y2lat cosp sqrtp A B Q).ratio = Fl.fin 0 ∧
          (pd2Trace lat2y y2lat cosp sqrtp A B Q).nearest = A) ∧
       (|u - 1| ≤ flt_epsilon →
          (pd2Trace lat2y y2lat cosp sqrtp A B Q).ratio = Fl.fin 1 ∧
          (pd2Trace lat2y y2lat cosp sqrtp A B Q).nearest = B))) ∧
    ((pd1Trace lat2y y2lat cosp sqrtp Q A B).rawRatio = Fl.fin u →
      ((|u| ≤ flt_epsilon →
          (pd1Trace lat2y y2lat cosp sqrtp Q A B).ratio = Fl.fin 0 ∧
          (pd1Trace lat2y y2lat cosp sqrtp Q A B).nearest = A) ∧
       (|u - 1| ≤ flt_epsilon →
          (pd1Trace lat2y y2lat cosp sqrtp Q A B).ratio = Fl.fin 1 ∧
          (pd1Trace lat2y y2lat cosp sqrtp Q A B).nearest = B))) := by
  constructor
  · intro hraw
    constructor
    · intro hu
      have hr : (pd2Trace lat2y y2lat cosp sqrtp A B Q).ratio = Fl.fin 0 := by
        show resolveRatio (pd2Trace lat2y y2lat cosp sqrtp A B Q).rawRatio
          (B.lat = Q.lat ∧ B.lon = Q.lon) = Fl.fin 0
        rw [hraw]
        exact resolveRatio_snap0 u _ hu
      exact ⟨hr, select_fin0 hr _ _ _⟩
    · intro hu
      have hr : (pd2Trace lat2y y2lat cosp sqrtp A B Q).ratio = Fl.fin 1 := by
        show resolveRatio (pd2Trace lat2y y2lat cosp sqrtp A B Q).rawRatio
          (B.lat = Q.lat ∧ B.lon = Q.lon) = Fl.fin 1
        rw [hraw]
        exact resolveRatio_snap1 u _ hu
      exact ⟨hr, select_fin1 hr _ _ _⟩
  · intro hraw
    constructor
    · intro hu
      have hr : (pd1Trace lat2y y2lat cosp sqrtp Q A B).ratio = Fl.fin 0 := by
        show resolveRatio (pd1Trace lat2y y2lat cosp sqrtp Q A B).rawRatio
          (B.lat = Q.lat ∧ B.lon = Q.lon) = Fl.fin 0
        rw [hraw]
        exact resolveRatio_snap0 u _ hu
      exact ⟨hr, select_fin0 hr _ _ _⟩
    · intro hu
      have hr : (pd1Trace lat2y y2lat cosp sqrtp Q A B).ratio = Fl.fin 1 := by
        show resolveRatio (pd1Trace lat2y y2lat cosp sqrtp Q A B).rawRatio
          (B.lat = Q.lat ∧ B.lon = Q.lon) = Fl.fin 1
        rw [hraw]
        exact resolveRatio_snap1 u _ hu
      exact ⟨hr, select_fin1 hr _ _ _⟩

/-- Claim C5 witness: with identity transforms, the query at the source
yields raw ratio exactly 0 (snapped to 0, source selected), and the query at
the target yields raw ratio exactly 1 (snapped to 1, target selected). -/
theorem C5_eps_snapping_witness :
    ((pd2Trace id id id id ⟨0, 1000000⟩ ⟨1000000, 2000000⟩ ⟨0, 1000000⟩).rawRatio =
        Fl.fin 0 ∧
      (pd2Trace id id id id ⟨0, 1000000⟩ ⟨1000000, 2000000⟩ ⟨0, 1000000⟩).ratio = Fl.fin 0 ∧
      (pd2Trace id id id id ⟨0, 1000000⟩ ⟨1000000, 2000000⟩ ⟨0, 1000000⟩).nearest =
        ⟨0, 1000000⟩) ∧
    ((pd2Trace id id id id ⟨0, 1000000⟩ ⟨1000000, 2000000⟩ ⟨1000000, 2000000⟩).rawRatio =
        Fl.fin 1 ∧
      (pd2Trace id id id id ⟨0, 1000000⟩ ⟨1000000, 2000000⟩ ⟨1000000, 2000000⟩).ratio =
        Fl.fin 1 ∧
      (pd2Trace id id id id ⟨0, 1000000⟩ ⟨1000000, 2000000⟩ ⟨1000000, 2000000⟩).nearest =
        ⟨1000000, 2000000⟩) := by
  have h0 :
      (pd2Trace id id id id ⟨0, 1000000⟩ ⟨1000000, 2000000⟩ ⟨0, 1000000⟩).rawRatio =
        Fl.fin 0 := by
    norm_num [pd2Trace, fdivq, fdiv, fmul, fsub, fadd, fneg, fabs, flt, fle, fisnan,
      COORDINATE_PRECISION, flt_epsilon, id]
  have h1 :
      (pd2Trace id id id id ⟨0, 1000000⟩ ⟨1000000, 2000000⟩ ⟨1000000, 2000000⟩).rawRatio =
        Fl.fin 1 := by
    norm_num [pd2Trace, fdivq, fdiv, fmul, fsub, fadd, fneg, fabs, flt, fle, fisnan,
      COORDINATE_PRECISION, flt_epsilon, id]
  have r0 :=
    ((C5_eps_snapping id id id id ⟨0, 1000000⟩ ⟨1000000, 2000000⟩ ⟨0, 1000000⟩ 0).1 h0).1
      (by norm_num [flt_epsilon])
  have r1 :=
    ((C5_eps_snapping id id id id ⟨0, 1000000⟩ ⟨1000000, 2000000⟩ ⟨1000000, 2000000⟩ 1).1
        h1).2
      (by norm_num [flt_epsilon])
  exact ⟨⟨h0, r0.1, r0.2⟩, ⟨h1, r1.1, r1.2⟩⟩

/-! ### Claim C2: degenerate segment -/

/-- Claim C2: for a degenerate segment whose source and target are the same
coordinate, the three-output projection selects the source's integer fields
as the nearest point for every valid query, and the returned distance is the
planar approximation distance between the query and the source. -/
theorem C2_degenerate_segment (lat2y y2lat cosp sqrtp : ℚ → ℚ)
    (S T P : FixedPointCoordinate) (hST : S = T) (hP : P.isValid = true) :
    (pd2Trace lat2y y2lat cosp sqrtp S T P).nearest = S ∧
    (pd2Trace lat2y y2lat cosp sqrtp S T P).dist =
      ApproximateEuclideanDistanceCoord cosp sqrtp P S := by
  subst hST
  set t := pd2Trace lat2y y2lat cosp sqrtp S S P with ht
  have hca : t.c = t.a := rfl
  have hdb : t.d = t.b := rfl
  have hcond : ¬ flt_epsilon < |t.a - t.c| := by
    rw [hca]
    simp [flt_epsilon]
  have hp : t.p = t.c := by
    show (if flt_epsilon < |t.a - t.c| then
        ((t.x + (t.m * t.y)) + (t.m * t.m * t.a - t.m * t.b)) / (1 + t.m * t.m)
      else t.c) = t.c
    exact if_neg hcond
  have hq : t.q = t.y := by
    show (if flt_epsilon < |t.a - t.c| then t.b + t.m * (t.p - t.a) else t.y) = t.y
    exact if_neg hcond
  set N := t.d * t.p - t.c * t.q with hN
  have hNval : N = t.b * t.a - t.a * t.y := by
    rw [hN, hdb, hp, hca, hq]
  have hnY : t.nY =
      (if flt (fabs (fdivq N (t.a * t.d - t.b * t.c))) (Fl.fin (1 / COORDINATE_PRECISION)) =
          true then Fl.fin 0
       else fdivq N (t.a * t.d - t.b * t.c)) := rfl
  have hraw : t.rawRatio = fdiv (fsub (Fl.fin t.p) (fmul t.nY (Fl.fin t.a))) (Fl.fin t.c) := rfl
  have hratio : t.ratio = resolveRatio t.rawRatio (S.lat = P.lat ∧ S.lon = P.lon) := rfl
  have hnear : t.nearest = selectNearest t.ratio S S
      ⟨truncQ (y2lat t.p * COORDINATE_PRECISION), truncQ (t.q * COORDINATE_PRECISION)⟩ := rfl
  have hdist : t.dist = ApproximateEuclideanDistanceCoord cosp sqrtp P t.nearest := rfl
  have hden : t.a * t.d - t.b * t.c = 0 := by
    rw [hca, hdb]
    ring
  rw [hden] at hnY
  have hnearS : t.nearest = S := by
    rcases lt_trichotomy N 0 with hNlt | hNeq | hNgt
    · -- numerator negative: nY = -inf
      rw [fdivq_neg_zero hNlt] at hnY
      simp only [fabs_ninf, flt_pinf_fin, Bool.false_eq_true, if_false] at hnY
      have haz : t.a ≠ 0 := by
        intro h0
        rw [hNval, h0] at hNlt
        simp at hNlt
      rcases haz.lt_or_lt with halt | hagt
      · have hrawv : t.rawRatio = Fl.pinf := by
          rw [hraw, hnY, fmul_ninf_fin_neg halt, fsub_fin_pinf, hca, fdiv_ninf_fin_neg halt]
        have hrt : t.ratio = Fl.pinf := by
          rw [hratio, hrawv]
          simp [resolveRatio]
        rw [hnear]
        exact select_pinf hrt _ _ _
      · have hrawv : t.rawRatio = Fl.pinf := by
          rw [hraw, hnY, fmul_ninf_fin_pos hagt, fsub_fin_ninf, hca,
            fdiv_pinf_fin_nonneg hagt.le]
        have hrt : t.ratio = Fl.pinf := by
          rw [hratio, hrawv]
          simp [resolveRatio]
        rw [hnear]
        exact select_pinf hrt _ _ _
    · -- numerator zero: nY = NaN, ratio resolved by the fallback
      rw [hNeq, fdivq_zero_zero] at hnY
      simp only [fabs_nan, flt_nan_left, Bool.false_eq_true, if_false] at hnY
      have hrawnan : t.rawRatio = Fl.nan := by
        rw [hraw, hnY]
        simp
      have hrt : t.ratio = Fl.fin (if S.lat = P.lat ∧ S.lon = P.lon then 1 else 0) := by
        rw [hratio, hrawnan]
        simp [resolveRatio]
      by_cases hPT : S.lat = P.lat ∧ S.lon = P.lon
      · have h1 : t.ratio = Fl.fin 1 := by rw [hrt, if_pos hPT]
        rw [hnear]
        exact select_fin1 h1 _ _ _
      · have h1 : t.ratio = Fl.fin 0 := by rw [hrt, if_neg hPT]
        rw [hnear]
        exact select_fin0 h1 _ _ _
    · -- numerator positive: nY = +inf
      rw [fdivq_pos_zero hNgt] at hnY
      simp only [fabs_pinf, flt_pinf_fin, Bool.false_eq_true, if_false] at hnY
      have haz : t.a ≠ 0 := by
        intro h0
        rw [hNval, h0] at hNgt
        simp at hNgt
      rcases haz.lt_or_lt with halt | hagt
      · have hrawv : t.rawRatio = Fl.ninf := by
          rw [hraw, hnY, fmul_pinf_fin_neg halt, fsub_fin_ninf, hca,
            fdiv_pinf_fin_neg halt]
        have hrt : t.ratio = Fl.ninf := by
          rw [hratio, hrawv]
          simp [resolveRatio]
        rw [hnear]
        exact select_ninf hrt _ _ _
      · have hrawv : t.rawRatio = Fl.ninf := by
          rw [hraw, hnY, fmul_pinf_fin_pos hagt, fsub_fin_pinf, hca,
            fdiv_ninf_fin_nonneg hagt.le]
        have hrt : t.ratio = Fl.ninf := by
          rw [hratio, hrawv]
          simp [resolveRatio]
        rw [hnear]
        exact select_ninf hrt _ _ _
  refine ⟨hnearS, ?_⟩
  rw [hdist, hnearS]

/-- Claim C2 witness: a concrete degenerate segment and a distinct valid
query point. -/
theorem C2_degenerate_segment_witness :
    (⟨0, 0⟩ : FixedPointCoordinate).isValid = true ∧
    (pd2Trace id id id id ⟨1000000, 2000000⟩ ⟨1000000, 2000000⟩ ⟨0, 0⟩).nearest =
      ⟨1000000, 2000000⟩ ∧
    (pd2Trace id id id id ⟨1000000, 2000000⟩ ⟨1000000, 2000000⟩ ⟨0, 0⟩).dist =
      ApproximateEuclideanDistanceCoord id id ⟨0, 0⟩ ⟨1000000, 2000000⟩ := by
  have hP : (⟨0, 0⟩ : FixedPointCoordinate).isValid = true := by
    norm_num [FixedPointCoordinate.isValid, COORDINATE_PRECISION]
  have h := C2_degenerate_segment id id id id ⟨1000000, 2000000⟩ ⟨1000000, 2000000⟩ ⟨0, 0⟩
    rfl hP
  exact ⟨hP, h.1, h.2⟩

/-! ### Claim C4: query at the source endpoint -/

/-- Claim C4 counterexample: when the query, source and target all coincide,
the raw ratio is NaN and the fallback resolves it to 1 (because the query
equals the target), not to 0 as the claim states. -/
theorem C4_counterexample :
    (pd2Trace id id id id ⟨0, 0⟩ ⟨0, 0⟩ ⟨0, 0⟩).ratio = Fl.fin 1 ∧
    (pd2Trace id id id id ⟨0, 0⟩ ⟨0, 0⟩ ⟨0, 0⟩).ratio ≠ Fl.fin 0 := by
  have h : (pd2Trace id id id id ⟨0, 0⟩ ⟨0, 0⟩ ⟨0, 0⟩).ratio = Fl.fin 1 := by
    norm_num [pd2Trace, fdivq, fdiv, fmul, fsub, fadd, fneg, fabs, flt, fle, fisnan,
      COORDINATE_PRECISION, flt_epsilon, id]
  refine ⟨h, ?_⟩
  rw [h]
  simp

/-- Claim C4 as amended: if additionally the segment is not degenerate
(`S ≠ T`), a query exactly at the source yields ratio exactly 0, selects the
source as nearest point and returns distance 0.  The `hgap` hypothesis
states that the latitude transform separates distinct fixed-point latitudes
by more than float epsilon, which holds for the real Mercator transform at
the 10^-6-degree resolution; `hsqrt` states that the square-root parameter
vanishes at 0. -/
theorem C4_query_at_source (lat2y y2lat cosp sqrtp : ℚ → ℚ)
    (S T : FixedPointCoordinate)
    (hgap : S.lat ≠ T.lat →
      flt_epsilon < |lat2y ((S.lat : ℚ) / COORDINATE_PRECISION) -
        lat2y ((T.lat : ℚ) / COORDINATE_PRECISION)|)
    (hsqrt : sqrtp 0 = 0)
    (hne : S ≠ T) :
    (pd2Trace lat2y y2lat cosp sqrtp S T S).ratio = Fl.fin 0 ∧
    (pd2Trace lat2y y2lat cosp sqrtp S T S).nearest = S ∧
    (pd2Trace lat2y y2lat cosp sqrtp S T S).dist = 0 := by
  set t := pd2Trace lat2y y2lat cosp sqrtp S T S with ht
  have hxa : t.x = t.a := rfl
  have hyb : t.y = t.b := rfl
  have hnY : t.nY =
      (if flt (fabs (fdivq (t.d * t.p - t.c * t.q) (t.a * t.d - t.b * t.c)))
          (Fl.fin (1 / COORDINATE_PRECISION)) = true then Fl.fin 0
       else fdivq (t.d * t.p - t.c * t.q) (t.a * t.d - t.b * t.c)) := rfl
  have hraw : t.rawRatio = fdiv (fsub (Fl.fin t.p) (fmul t.nY (Fl.fin t.a))) (Fl.fin t.c) := rfl
  have hratio : t.ratio = resolveRatio t.rawRatio (T.lat = S.lat ∧ T.lon = S.lon) := rfl
  have hnear : t.nearest = selectNearest t.ratio S T
      ⟨truncQ (y2lat t.p * COORDINATE_PRECISION), truncQ (t.q * COORDINATE_PRECISION)⟩ := rfl
  have hdist : t.dist = ApproximateEuclideanDistanceCoord cosp sqrtp S t.nearest := rfl
  have hPT : ¬ (T.lat = S.lat ∧ T.lon = S.lon) := by
    rintro ⟨h1, h2⟩
    apply hne
    cases S
    cases T
    simp only [FixedPointCoordinate.mk.injEq] at h1 h2 ⊢
    exact ⟨h1.symm, h2.symm⟩
  have hkey : t.p = t.a ∧ t.d * t.p - t.c * t.q = t.a * t.d - t.b * t.c := by
    by_cases hv : flt_epsilon < |t.a - t.c|
    · have hpa : t.p = t.a := by
        have e : t.p =
            ((t.x + (t.m * t.y)) + (t.m * t.m * t.a - t.m * t.b)) / (1 + t.m * t.m) := by
          show (if flt_epsilon < |t.a - t.c| then
              ((t.x + (t.m * t.y)) + (t.m * t.m * t.a - t.m * t.b)) / (1 + t.m * t.m)
            else t.c) = _
          exact if_pos hv
        have hm : (0 : ℚ) < 1 + t.m * t.m := by nlinarith [mul_self_nonneg t.m]
        rw [e, hxa, hyb, div_eq_iff (ne_of_gt hm)]
        ring
      have hqb : t.q = t.b := by
        have e : t.q = t.b + t.m * (t.p - t.a) := by
          show (if flt_epsilon < |t.a - t.c| then t.b + t.m * (t.p - t.a) else t.y) = _
          exact if_pos hv
        rw [e, hpa]
        ring
      exact ⟨hpa, by rw [hpa, hqb]; ring⟩
    · have hlat : S.lat = T.lat := by
        by_contra hll
        exact hv (hgap hll)
      have hca : t.c = t.a := by
        show lat2y ((T.lat : ℚ) / COORDINATE_PRECISION) =
          lat2y ((S.lat : ℚ) / COORDINATE_PRECISION)
        rw [hlat]
      have hpa : t.p = t.a := by
        have e : t.p = t.c := by
          show (if flt_epsilon < |t.a - t.c| then
              ((t.x + (t.m * t.y)) + (t.m * t.m * t.a - t.m * t.b)) / (1 + t.m * t.m)
            else t.c) = t.c
          exact if_neg hv
        rw [e, hca]
      have hqb : t.q = t.b := by
        have e : t.q = t.y := by
          show (if flt_epsilon < |t.a - t.c| then t.b + t.m * (t.p - t.a) else t.y) = t.y
          exact if_neg hv
        rw [e, hyb]
      exact ⟨hpa, by rw [hpa, hqb, hca]; ring⟩
  obtain ⟨hpa, hansd⟩ := hkey
  rw [hansd] at hnY
  have hrat : t.ratio = Fl.fin 0 := by
    by_cases hD : t.a * t.d - t.b * t.c = 0
    · rw [hD, fdivq_zero_zero] at hnY
      simp only [fabs_nan, flt_nan_left, Bool.false_eq_true, if_false] at hnY
      have hrawnan : t.rawRatio = Fl.nan := by
        rw [hraw, hnY]
        simp
      rw [hratio, hrawnan]
      simp [resolveRatio, hPT]
    · rw [fdivq_self hD] at hnY
      have hnY1 : t.nY = Fl.fin 1 := by
        rw [hnY]
        norm_num [COORDINATE_PRECISION]
      have hraw0 : t.rawRatio = fdiv (Fl.fin 0) (Fl.fin t.c) := by
        rw [hraw, hnY1, fmul_fin_fin, fsub_fin_fin, hpa,
          show t.a - 1 * t.a = (0 : ℚ) by ring]
      by_cases hc : t.c = 0
      · have hrawnan : t.rawRatio = Fl.nan := by
          rw [hraw0, hc]
          exact fdiv_zero_zero
        rw [hratio, hrawnan]
        simp [resolveRatio, hPT]
      · have hrawfin : t.rawRatio = Fl.fin 0 := by
          rw [hraw0, fdiv_fin_fin 0 hc, zero_div]
        rw [hratio, hrawfin]
        exact resolveRatio_snap0 0 _ (by norm_num [flt_epsilon])
  have hnearS : t.nearest = S := by
    rw [hnear]
    exact select_fin0 hrat _ _ _
  refine ⟨hrat, hnearS, ?_⟩
  rw [hdist, hnearS]
  simp only [ApproximateEuclideanDistanceCoord, ApproximateEuclideanDistance]
  have e : ∀ u w : ℚ,
      ((u - u) * cosp ((w + w) / 2)) * ((u - u) * cosp ((w + w) / 2)) + (w - w) * (w - w) =
        0 := by
    intro u w
    ring
  rw [e, hsqrt, zero_mul]

/-- Claim C4 witness (for the amended claim): a concrete non-degenerate
segment with the query at the source. -/
theorem C4_query_at_source_witness :
    ((⟨0, 1000000⟩ : FixedPointCoordinate) ≠ ⟨1000000, 2000000⟩) ∧
    (pd2Trace id id id id ⟨0, 1000000⟩ ⟨1000000, 2000000⟩ ⟨0, 1000000⟩).ratio = Fl.fin 0 ∧
    (pd2Trace id id id id ⟨0, 1000000⟩ ⟨1000000, 2000000⟩ ⟨0, 1000000⟩).nearest =
      ⟨0, 1000000⟩ ∧
    (pd2Trace id id id id ⟨0, 1000000⟩ ⟨1000000, 2000000⟩ ⟨0, 1000000⟩).dist = 0 := by
  have hne : (⟨0, 1000000⟩ : FixedPointCoordinate) ≠ ⟨1000000, 2000000⟩ := by
    simp [FixedPointCoordinate.mk.injEq]
  have h := C4_query_at_source id id id id ⟨0, 1000000⟩ ⟨1000000, 2000000⟩
    (fun _ => by norm_num [flt_epsilon, COORDINATE_PRECISION, id]) rfl hne
  exact ⟨hne, h.1, h.2.1, h.2.2⟩

/-! ### Claim C6: the ordering-only approximation's selection rule -/

/-- Claim C6 counterexample: for the meridian segment from (0,0) to
(lat 10^6, lon 0) and query (10^6, 10^6), the denominator `a*d - b*c` is an
exact zero and the raw ratio is NaN; the fallback resolves it to 0, and the
code's strict test `ratio < 0` then selects the projected foot, while the
claim's rule `ratio ≤ 0` selects the source.  The two selections give
different truncated distances. -/
theorem C6_counterexample :
    OrderedPerpendicularDistanceApproximation id id id ⟨1000000, 1000000⟩ ⟨0, 0⟩
        ⟨1000000, 0⟩ ≠
      SpecOrderedDistance id id id ⟨1000000, 1000000⟩ ⟨0, 0⟩ ⟨1000000, 0⟩ := by
  have h1 :
      OrderedPerpendicularDistanceApproximation id id id ⟨1000000, 1000000⟩ ⟨0, 0⟩
        ⟨1000000, 0⟩ = 1000000000000 := by
    norm_num [OrderedPerpendicularDistanceApproximation, fdivq, fdiv, fmul, fsub, fadd, fneg,
      fabs, flt, fle, fisnan, truncQ, COORDINATE_PRECISION, id]
  have h2 :
      SpecOrderedDistance id id id ⟨1000000, 1000000⟩ ⟨0, 0⟩ ⟨1000000, 0⟩ =
        2000000000000 := by
    norm_num [SpecOrderedDistance, fdivq, fdiv, fmul, fsub, fadd, fneg,
      fabs, flt, fle, fisnan, truncQ, COORDINATE_PRECISION, id]
  rw [h1, h2]
  norm_num

/-- Claim C6 as amended: `OrderedPerpendicularDistanceApproximation` returns
the integer-truncated planar Euclidean distance between the query point and
whichever of source / target / projected foot is selected by the strict
ratio test: `ratio < 0` selects the source, `ratio > 1` selects the target,
and otherwise (including ratios exactly 0 and 1, in particular the NaN
fallback values) the projected foot is used. -/
theorem C6_strict_selection (lat2y y2lat sqrtp : ℚ → ℚ)
    (P S T : FixedPointCoordinate) :
    OrderedPerpendicularDistanceApproximation lat2y y2lat sqrtp P S T =
      SpecOrderedDistanceStrict lat2y y2lat sqrtp P S T := by
  simp only [OrderedPerpendicularDistanceApproximation, SpecOrderedDistanceStrict]
  split_ifs <;> (try dsimp only) <;> (try rw [truncQ_int_sub, truncQ_int_sub])
